import Mathlib

/-!
Verification of dfuse's mount-orchestration subsystem
(src/client/dfuse/dfuse_main.c): the fork-based daemonization
handshake, the FUSE session lifecycle, and the pool/container
identity-resolution pipeline in `main`.

The C code is shallowly embedded: external calls (pipe, fork, pselect,
read/write, fuse_*, duns_resolve_path, dfuse_pool_connect, ...) are
represented by oracle values carried in environment records, and the
control flow of each function is transcribed directly from the source.
Side effects that the properties talk about (writes on the handshake
pipe, mounting, running the loop, unmounting, forking, error reports)
are recorded as explicit event traces.
-/

namespace Dfuse

/-! ## Error-number constants (gurt/errno.h, asm-generic/errno.h) -/

/-- `DER_SUCCESS` is zero; the code returns `-DER_SUCCESS` on success. -/
def DER_SUCCESS : Int := 0

/-- Base of the gurt error range, used by `exit(-(rc + DER_ERR_GURT_BASE))`. -/
def DER_ERR_GURT_BASE : Int := 1000

/-- `DER_INVAL`: invalid parameters (gurt value 1003). -/
def DER_INVAL : Int := 1003

/-- `DER_MISC`: miscellaneous error (gurt). -/
def DER_MISC : Int := 1025

/-- errno ENOENT. -/
def ENOENT : Int := 2

/-- errno ENODATA. -/
def ENODATA : Int := 61

/-- errno ENOTSUP. -/
def ENOTSUP : Int := 95

/-! ## Events

One shared event alphabet for the handshake write and the FUSE
session lifecycle (`dfuse_launch_fuse`). -/

/-- Events of `dfuse_send_to_fg` and `dfuse_launch_fuse`:
`write rc` is the 4-byte `write(2)` of `rc` on the handshake pipe;
`create` is a successful `fuse_session_new`; `mount` a successful
`fuse_session_mount`; `freeArgs` is `fuse_opt_free_args`;
`loop rc` is the event loop returning `rc`; `unmount` is
`fuse_session_unmount`. -/
inductive Ev where
  | write (rc : Int)
  | create
  | mount
  | freeArgs
  | loop (rc : Int)
  | unmount
deriving DecidableEq, Repr

/-! ## The daemonization handshake: parent side of dfuse_bg -/

/-- What the parent observes after blocking in `pselect` on the read end
of the handshake pipe:
* `interrupted` — `pselect` failed with `errno == EINTR` (the SIGCHLD
  of a child that died without writing);
* `dataReady b ret` — `pselect` succeeded with the pipe fd set, and the
  subsequent `read` returned `b` bytes carrying the integer `ret`;
* `noData` — `pselect` returned without the pipe fd set. -/
inductive ParentObs where
  | interrupted
  | dataReady (b : Nat) (ret : Int)
  | noData
deriving DecidableEq, Repr

/-- The exit code `exit(-(child_ret + DER_ERR_GURT_BASE))` the parent
derives from a nonzero child result (dfuse_main.c line 149). -/
def exitCodeOfResult (ret : Int) : Int := -(ret + DER_ERR_GURT_BASE)

/-- Parent half of `dfuse_bg` after the fork (dfuse_main.c lines
128-156): the exit status of the foreground process as a function of
the handshake observation. -/
def dfuse_bg_parent : ParentObs → Int
  | .interrupted => 2
  | .dataReady b ret =>
      if b ≠ 4 then 2
      else if ret ≠ 0 then exitCodeOfResult ret
      else 0
  | .noData => 2

/-! ## dfuse_send_to_fg: the one-shot startup-result report -/

/-- The process-wide handshake state: `bg_fd` is the write end of the
pipe held by the background child, `0` when absent or already used. -/
structure BgState where
  bg_fd : Nat
deriving DecidableEq, Repr

/-- Oracle outcomes for the external calls made by `dfuse_send_to_fg`:
whether `write` returned `sizeof(rc)`, whether `open("/dev/null")`
succeeded, and whether `chdir("/")` returned 0. -/
structure SendEnv where
  write_ok : Bool
  devnull_ok : Bool
  chdir_ok : Bool
deriving DecidableEq, Repr

/-- `dfuse_send_to_fg` (dfuse_main.c lines 34-76).  If `bg_fd` is zero
the call is a no-op returning `-DER_SUCCESS`.  Otherwise it performs
exactly one `write` of `rc`, closes and zeroes `bg_fd`, and returns
`-DER_MISC` on a short write; on a nonzero `rc` it stops there, else it
detaches (chdir to `/`, redirect stdio to `/dev/null`), reporting
`-DER_MISC` if the null device cannot be opened or the chdir failed
(the null-device failure is checked before the chdir result, as in the
source). -/
def dfuse_send_to_fg (env : SendEnv) (rc : Int) (s : BgState) :
    Int × BgState × List Ev :=
  if s.bg_fd = 0 then (-DER_SUCCESS, s, [])
  else
    let ret : Int :=
      if ¬env.write_ok then -DER_MISC
      else if rc ≠ 0 then -DER_SUCCESS
      else if ¬env.devnull_ok then -DER_MISC
      else if ¬env.chdir_ok then -DER_MISC
      else -DER_SUCCESS
    (ret, ⟨0⟩, [Ev.write rc])

/-! ## dfuse_launch_fuse -/

/-- Oracle outcomes for the external calls of `dfuse_launch_fuse`:
whether `fuse_session_new` returned non-NULL, the return of
`fuse_session_mount`, the environment of the `dfuse_send_to_fg(0)`
call, and the return of the event loop (`ll_loop_fn`). -/
structure LaunchEnv where
  session_new_ok : Bool
  mount_rc : Int
  send_env : SendEnv
  loop_rc : Int
deriving DecidableEq, Repr

/-- FuseSession lifecycle states: `unbound` (no session object),
`bound` (created, not mounted), `mounted`, `unmounted` (loop exited
and `fuse_session_unmount` ran; destruction happens elsewhere). -/
inductive SessionSt where
  | unbound
  | bound
  | mounted
  | unmounted
deriving DecidableEq, Repr

/-- Result of `dfuse_launch_fuse`: the boolean return value, the state
the session object is left in, the handshake state, and the trace of
events. -/
structure LaunchRes where
  ret : Bool
  session : SessionSt
  bg : BgState
  events : List Ev
deriving DecidableEq, Repr

/-- `dfuse_launch_fuse` (dfuse_main.c lines 183-218), transcribed:
create the session (failure: cleanup, return false); mount it
(failure: cleanup, return false — the cleanup label performs no
teardown, so the created session stays behind); free the parsed args;
`dfuse_send_to_fg(0)` (non-success: cleanup, return false); run the
loop; unmount unconditionally; return false if the loop failed, else
true. -/
def dfuse_launch_fuse (env : LaunchEnv) (bg : BgState) : LaunchRes :=
  if ¬env.session_new_ok then ⟨false, .unbound, bg, []⟩
  else if env.mount_rc ≠ 0 then ⟨false, .bound, bg, [.create]⟩
  else
    let r := dfuse_send_to_fg env.send_env 0 bg
    let evs := [Ev.create, Ev.mount, Ev.freeArgs] ++ r.2.2
    if r.1 ≠ -DER_SUCCESS then ⟨false, .mounted, r.2.1, evs⟩
    else if env.loop_rc ≠ 0 then
      ⟨false, .unmounted, r.2.1, evs ++ [.loop env.loop_rc, .unmount]⟩
    else
      ⟨true, .unmounted, r.2.1, evs ++ [.loop env.loop_rc, .unmount]⟩

/-! ## Command-line parsing (the getopt_long switch in main) -/

/-- The mutable configuration record `struct dfuse_info` as far as
`main` touches it before handing off: threading, caching and
foreground flags, thread count, mountpoint and DAOS group name. -/
structure DfuseInfo where
  di_threaded : Bool
  di_caching : Bool
  di_wb_cache : Bool
  di_foreground : Bool
  di_thread_count : Int
  di_mountpoint : Option String
  di_group : Option String
deriving DecidableEq, Repr

/-- State built up by the option loop of `main`: the `dfuse_info`
fields plus the local variables `pool_name`, `cont_name`, `path` and
`have_thread_count`. -/
structure ParseState where
  info : DfuseInfo
  pool_name : Option String
  cont_name : Option String
  path : Option String
  have_thread_count : Bool
deriving DecidableEq, Repr

/-- One recognized command-line option, i.e. one case of the getopt
switch (dfuse_main.c lines 335-385).  Argument-taking options carry
their already-extracted argument; `threadCount` carries the value
after `atoi`. -/
inductive CmdOpt where
  | mountpoint (s : String)
  | path (s : String)
  | pool (s : String)
  | container (s : String)
  | sysName (s : String)
  | singlethread
  | threadCount (n : Int)
  | foreground
  | disableCaching
  | disableWbCache
deriving DecidableEq, Repr

/-- The parse state before the option loop: `dfuse_info` is zeroed by
`D_ALLOC_PTR` and then `di_threaded`, `di_caching` and `di_wb_cache`
are set to true (dfuse_main.c lines 324-326). -/
def initState : ParseState :=
  { info := { di_threaded := true, di_caching := true, di_wb_cache := true,
              di_foreground := false, di_thread_count := 0,
              di_mountpoint := none, di_group := none },
    pool_name := none, cont_name := none, path := none,
    have_thread_count := false }

/-- One iteration of the getopt switch (dfuse_main.c lines 335-385).
`disableCaching` ('A') clears both `di_caching` and `di_wb_cache`;
`disableWbCache` ('B') clears only `di_wb_cache`; `singlethread`
clears `di_threaded` and forces a thread count of 2 (one extra for the
event queue). -/
def applyOpt (s : ParseState) : CmdOpt → ParseState
  | .mountpoint m => { s with info := { s.info with di_mountpoint := some m } }
  | .path p => { s with path := some p }
  | .pool n => { s with pool_name := some n }
  | .container n => { s with cont_name := some n }
  | .sysName g => { s with info := { s.info with di_group := some g } }
  | .singlethread =>
      { s with info := { s.info with di_threaded := false, di_thread_count := 2 } }
  | .threadCount n =>
      { s with info := { s.info with di_thread_count := n },
               have_thread_count := true }
  | .foreground => { s with info := { s.info with di_foreground := true } }
  | .disableCaching =>
      { s with info := { s.info with di_caching := false, di_wb_cache := false } }
  | .disableWbCache => { s with info := { s.info with di_wb_cache := false } }

/-- The whole option loop: fold the switch over the recognized options
in command-line order. -/
def parseOpts (opts : List CmdOpt) : ParseState :=
  opts.foldl applyOpt initState

/-! ## The startup pipeline of main after option parsing -/

/-- How a pool is connected / a container is opened (dfuse_main.c
lines 509-532): by UUID via `dfuse_pool_connect`/`dfuse_cont_open`, or
by label via the `_by_label` variants when the name fails
`uuid_parse`. -/
inductive ConnectHow where
  | byUuid (u : Nat)
  | byLabel (l : String)
deriving DecidableEq, Repr

/-- Which operation table the container handle is bound to:
`contOps` is the ordinary single-pool table installed by
`dfuse_cont_open` (modelled; that function is outside this unit), and
`poolOps` is `dfuse_pool_ops`, the multi-pool table installed by
`main` when the connected pool UUID is nil (dfuse_main.c lines
539-540). -/
inductive OpsTable where
  | contOps
  | poolOps
deriving DecidableEq, Repr

/-- Observable events of the startup pipeline in `main`:
`err m` is a fatal error report printing `m` and unwinding;
`forkBg` is the fork performed by `dfuse_bg`; `daosInit`/`fsInit` are
`daos_init`/`dfuse_fs_init`; `resolvePath`/`resolveMountpoint` are the
two `duns_resolve_path` calls; `poolConnect`/`contOpen` record how the
pool was connected and the container opened; `dropPoolRef` is the
`d_hash_rec_decref` dropping the initial pool reference; `start` is
`dfuse_start`. -/
inductive MEv where
  | err (msg : String)
  | forkBg
  | daosInit
  | fsInit
  | resolvePath
  | resolveMountpoint
  | poolConnect (h : ConnectHow)
  | contOpen (h : ConnectHow)
  | dropPoolRef
  | start
deriving DecidableEq, Repr

/-- Oracle values for the external calls `main` makes after option
parsing: presence of `PMIX_RANK` in the environment; the result of
`sched_getaffinity` (`some n` meaning success with `CPU_COUNT = n`);
whether `dfuse_bg` returned zero in the continuing process; the
results of `daos_init` and `dfuse_fs_init`; the `duns_resolve_path`
outcomes on `--path` and on the mountpoint as (errno, pool-uuid,
cont-uuid) triples; `uuid_parse` (`none` = not a UUID); the pool UUID
a by-label connect resolves to (the registry is keyed by identifier -
modelled, `dfuse_pool_connect_by_label` is outside this unit);
`daos_errno2der`; and the results of pool connect, container open,
`dfuse_start` and `dfuse_fs_fini`.  UUIDs are modelled as naturals
with `0` the nil UUID. -/
structure MainEnv where
  pmix_rank : Bool
  affinity : Option Int
  bg_ok : Bool
  daos_init_rc : Int
  fs_init_rc : Int
  path_resolve : Int × Nat × Nat
  mount_resolve : Int × Nat × Nat
  parseUuid : String → Option Nat
  labelPoolUuid : String → Nat
  errno2der : Int → Int
  pool_connect_rc : Int
  cont_open_rc : Int
  start_rc : Int
  fs_fini_rc : Int

/-- Result of the modelled `main` pipeline: the event trace, the `rc`
the unwind path ends with, the final `dfuse_info`, and — when the
respective point was reached — how the pool was connected, how the
container was opened, and which operation table the container handle
was bound to. -/
structure MainRes where
  events : List MEv
  rc : Int
  info : DfuseInfo
  poolConn : Option ConnectHow := none
  contOpenHow : Option ConnectHow := none
  dfsOps : Option OpsTable := none
deriving DecidableEq, Repr

/-- Intermediate context flowing between the pipeline stages: events
so far, the adjusted `dfuse_info`, the mountpoint, the parsed
`pool_name`/`cont_name`/`path`, and the current `pool_uuid`/
`cont_uuid` locals (zeroed — nil — at declaration). -/
structure Ctx where
  events : List MEv
  info : DfuseInfo
  mnt : String
  pool_name : Option String
  cont_name : Option String
  path : Option String
  pu : Nat
  cu : Nat
deriving DecidableEq, Repr

/-- The `PMIX_RANK` override (dfuse_main.c lines 388-392): running
under a job launcher forces foreground mode. -/
def pmixAdjust (env : MainEnv) (info : DfuseInfo) : DfuseInfo :=
  if ¬info.di_foreground ∧ env.pmix_rank then { info with di_foreground := true }
  else info

/-- The thread count `main` checks against the minimum of 2
(dfuse_main.c lines 400-410): in threaded mode without an explicit
`--thread-count` it is the CPU count from `sched_getaffinity` (`none`
if that call failed), otherwise the value already in `di_thread_count`. -/
def effectiveTC (env : MainEnv) (ps : ParseState) : Option Int :=
  if ps.info.di_threaded ∧ ¬ps.have_thread_count then env.affinity
  else some ps.info.di_thread_count

/-- Stage 1 of `main` after parsing (dfuse_main.c lines 388-441):
`PMIX_RANK` override; mountpoint required; thread count derivation and
the minimum-2 check; the reservation of one thread for the event
queue; `dfuse_bg` unless foreground (recorded as `forkBg`); the
container-without-pool check; `daos_init`; `dfuse_fs_init`. -/
def preStage (env : MainEnv) (ps : ParseState) : MainRes ⊕ Ctx :=
  let info1 := pmixAdjust env ps.info
  match info1.di_mountpoint with
  | none =>
      .inl { events := [.err "Mountpoint is required"], rc := -DER_INVAL, info := info1 }
  | some mnt =>
    match effectiveTC env ps with
    | none =>
        .inl { events := [.err "Failed to get cpuset information"],
               rc := -DER_INVAL, info := info1 }
    | some tc =>
      if tc < 2 then
        .inl { events := [.err "Dfuse needs at least two threads."],
               rc := -DER_INVAL, info := { info1 with di_thread_count := tc } }
      else
        let info3 := { info1 with di_thread_count := tc - 1 }
        let ev0 : List MEv := if info3.di_foreground then [] else [.forkBg]
        if ¬info3.di_foreground ∧ ¬env.bg_ok then
          .inl { events := ev0 ++ [.err "Failed to background"], rc := 2, info := info3 }
        else if ps.cont_name.isSome ∧ ps.pool_name.isNone then
          .inl { events := ev0 ++ [.err "Container name specified without pool"],
                 rc := -DER_INVAL, info := info3 }
        else if env.daos_init_rc ≠ 0 then
          .inl { events := ev0 ++ [.daosInit], rc := env.daos_init_rc, info := info3 }
        else if env.fs_init_rc ≠ 0 then
          .inl { events := ev0 ++ [.daosInit, .fsInit], rc := env.fs_init_rc, info := info3 }
        else
          .inr { events := ev0 ++ [.daosInit, .fsInit], info := info3, mnt := mnt,
                 pool_name := ps.pool_name, cont_name := ps.cont_name,
                 path := ps.path, pu := 0, cu := 0 }

/-- Stage 2 (dfuse_main.c lines 443-471): attributes on `--path`.  If
a path was given: fatal if an explicit pool was also given; resolve
the path — ENOENT is fatal, any other nonzero errno is fatal (a
supplied path must carry identity); success copies the resolved UUIDs
into `pool_uuid`/`cont_uuid`. -/
def pathStage (env : MainEnv) (c : Ctx) : MainRes ⊕ Ctx :=
  match c.path with
  | none => .inr c
  | some _ =>
    if c.pool_name.isSome then
      .inl { events := c.events ++ [.err "Pool specified multiple ways"],
             rc := -DER_INVAL, info := c.info }
    else
      let r := env.path_resolve
      if r.1 = ENOENT then
        .inl { events := c.events ++ [.resolvePath, .err "Attr path does not exist"],
               rc := env.errno2der r.1, info := c.info }
      else if r.1 ≠ 0 then
        .inl { events := c.events ++ [.resolvePath, .err "Error reading attr from path"],
               rc := env.errno2der r.1, info := c.info }
      else
        .inr { c with events := c.events ++ [.resolvePath], pu := r.2.1, cu := r.2.2 }

/-- Stage 3 (dfuse_main.c lines 473-502): probe the mountpoint for
attributes.  On success: fatal if an explicit pool was also given, and
fatal if `--path` was given and equals the mountpoint; otherwise the
mountpoint UUIDs overwrite `pool_uuid`/`cont_uuid`.  ENOENT on the
mountpoint is fatal.  Any errno other than ENODATA/ENOTSUP is fatal.
ENODATA/ENOTSUP continue with the UUIDs unchanged. -/
def mountStage (env : MainEnv) (c : Ctx) : MainRes ⊕ Ctx :=
  let r := env.mount_resolve
  let evs := c.events ++ [MEv.resolveMountpoint]
  if r.1 = 0 then
    if c.pool_name.isSome then
      .inl { events := evs ++ [.err "Pool specified multiple ways"],
             rc := -DER_INVAL, info := c.info }
    else if c.path = some c.mnt then
      .inl { events := evs ++ [.err "Attributes set on both path and mountpoint"],
             rc := -DER_INVAL, info := c.info }
    else
      .inr { c with events := evs, pu := r.2.1, cu := r.2.2 }
  else if r.1 = ENOENT then
    .inl { events := evs ++ [.err "Mount point does not exist"],
           rc := env.errno2der r.1, info := c.info }
  else if r.1 ≠ ENODATA ∧ r.1 ≠ ENOTSUP then
    .inl { events := evs, rc := env.errno2der r.1, info := c.info }
  else
    .inr { c with events := evs }

/-- How the pool connect is performed (dfuse_main.c lines 509-514): if
`pool_name` was given and fails `uuid_parse`, connect by label;
otherwise connect by UUID — the parsed `pool_name` if it was a UUID
(`uuid_parse` writes into `pool_uuid`), else the current `pool_uuid`. -/
def poolConnectHow (env : MainEnv) (c : Ctx) : ConnectHow :=
  match c.pool_name with
  | some n =>
    match env.parseUuid n with
    | none => .byLabel n
    | some u => .byUuid u
  | none => .byUuid c.pu

/-- How the container open is performed (dfuse_main.c lines 521-527),
symmetric to `poolConnectHow`. -/
def contOpenHowOf (env : MainEnv) (c : Ctx) : ConnectHow :=
  match c.cont_name with
  | some n =>
    match env.parseUuid n with
    | none => .byLabel n
    | some u => .byUuid u
  | none => .byUuid c.cu

/-- The pool UUID recorded in the connected `dfuse_pool` entry
(`dfp->dfp_pool`): the requested UUID for a by-UUID connect; for a
by-label connect, the UUID the label resolves to (modelled — the
registry keyed by identifier lives outside this unit). -/
def dfpPoolOf (env : MainEnv) (h : ConnectHow) : Nat :=
  match h with
  | .byUuid u => u
  | .byLabel l => env.labelPoolUuid l

/-- Stage 4 (dfuse_main.c lines 504-549): connect the pool (fatal on
failure), open the container (fatal on failure), drop the initial pool
reference, bind the container handle to `dfuse_pool_ops` when the
connected pool UUID is nil and to the table `dfuse_cont_open`
installed otherwise, then `dfuse_start`; on success the final rc is
that of `dfuse_fs_fini`. -/
def connectStage (env : MainEnv) (c : Ctx) : MainRes :=
  let ph := poolConnectHow env c
  if env.pool_connect_rc ≠ 0 then
    { events := c.events ++ [.poolConnect ph, .err "Failed to connect to pool"],
      rc := env.errno2der env.pool_connect_rc, info := c.info,
      poolConn := some ph }
  else
    let ch := contOpenHowOf env c
    if env.cont_open_rc ≠ 0 then
      { events := c.events ++ [.poolConnect ph, .contOpen ch,
                               .err "Failed to connect to container"],
        rc := env.errno2der env.cont_open_rc, info := c.info,
        poolConn := some ph, contOpenHow := some ch }
    else
      let dp := dfpPoolOf env ph
      let ops := if dp = 0 then OpsTable.poolOps else OpsTable.contOps
      let evs := c.events ++ [MEv.poolConnect ph, MEv.contOpen ch,
                              MEv.dropPoolRef, MEv.start]
      if env.start_rc ≠ 0 then
        { events := evs, rc := env.start_rc, info := c.info,
          poolConn := some ph, contOpenHow := some ch, dfsOps := some ops }
      else
        { events := evs, rc := env.fs_fini_rc, info := c.info,
          poolConn := some ph, contOpenHow := some ch, dfsOps := some ops }

/-- The startup pipeline of `main` from just after the option loop to
`dfuse_start`, as the composition of the four stages. -/
def mainAfterParse (env : MainEnv) (ps : ParseState) : MainRes :=
  match preStage env ps with
  | .inl r => r
  | .inr c =>
    match pathStage env c with
    | .inl r => r
    | .inr c2 =>
      match mountStage env c2 with
      | .inl r => r
      | .inr c3 => connectStage env c3

/-- `main` on a given command line: parse the options, then run the
startup pipeline. -/
def dfuse_main (env : MainEnv) (opts : List CmdOpt) : MainRes :=
  mainAfterParse env (parseOpts opts)

/-- The definitive attribute-derived identity, if any, for a run that
is not aborted: the mountpoint attributes when the mountpoint probe
succeeds (they overwrite the path ones), else the `--path` attributes
when a path was given and resolved. -/
def attrIdentity (env : MainEnv) (ps : ParseState) : Option (Nat × Nat) :=
  if env.mount_resolve.1 = 0 then some (env.mount_resolve.2.1, env.mount_resolve.2.2)
  else if ps.path.isSome ∧ env.path_resolve.1 = 0 then
    some (env.path_resolve.2.1, env.path_resolve.2.2)
  else none

/-- A fully successful oracle environment for the `main` pipeline:
no PMIX rank, 4 CPUs in the affinity mask, every external call
succeeding, no attributes on `--path` or the mountpoint (ENODATA),
no string parsing as a UUID. -/
def okEnv : MainEnv :=
  { pmix_rank := false, affinity := some 4, bg_ok := true,
    daos_init_rc := 0, fs_init_rc := 0,
    path_resolve := (ENODATA, 0, 0), mount_resolve := (ENODATA, 0, 0),
    parseUuid := fun _ => none, labelPoolUuid := fun _ => 1,
    errno2der := fun e => -(e + 5000),
    pool_connect_rc := 0, cont_open_rc := 0, start_rc := 0, fs_fini_rc := 0 }

/-! ## Theorems -/

/-- C1.  For every daemonized run, the parent's exit status is
determined by the handshake outcome exactly as specified: a full
4-byte zero result exits 0; a full 4-byte nonzero result exits with
the code derived from it (`-(result + DER_ERR_GURT_BASE)`); an
interrupted wait (child died without writing) exits 2; fewer than 4
bytes read exits 2. -/
theorem C1_parent_exit_protocol (b : Nat) (ret : Int) :
    dfuse_bg_parent (.dataReady 4 0) = 0 ∧
    (ret ≠ 0 → dfuse_bg_parent (.dataReady 4 ret) = exitCodeOfResult ret) ∧
    dfuse_bg_parent .interrupted = 2 ∧
    (b < 4 → dfuse_bg_parent (.dataReady b ret) = 2) := by
  refine ⟨by decide, fun h => ?_, by decide, fun h => ?_⟩
  · simp [dfuse_bg_parent, h]
  · have hb : b ≠ 4 := by omega
    simp [dfuse_bg_parent, hb]

/-- Witness for C1 at a concrete input: result `-1003`, short read of
2 bytes. -/
theorem C1_witness :
    dfuse_bg_parent (.dataReady 4 0) = 0 ∧
    dfuse_bg_parent (.dataReady 4 (-1003)) = exitCodeOfResult (-1003) ∧
    dfuse_bg_parent .interrupted = 2 ∧
    dfuse_bg_parent (.dataReady 2 (-1003)) = 2 :=
  ⟨(C1_parent_exit_protocol 2 (-1003)).1,
   (C1_parent_exit_protocol 2 (-1003)).2.1 (by decide),
   (C1_parent_exit_protocol 2 (-1003)).2.2.1,
   (C1_parent_exit_protocol 2 (-1003)).2.2.2 (by decide)⟩

/-- C2.  In `dfuse_launch_fuse`, when session creation and mount
succeed and the handshake channel is live, the startup-success signal
(`write 0`) appears exactly once in the trace, strictly after `mount`
and strictly before `loop`; the `unmount` follows the loop
unconditionally; and a failing loop makes the function return
false. -/
theorem C2_signal_then_loop_then_unmount (env : LaunchEnv) (bg : BgState)
    (hnew : env.session_new_ok = true) (hmnt : env.mount_rc = 0)
    (hfd : bg.bg_fd ≠ 0)
    (hw : env.send_env.write_ok = true)
    (hn : env.send_env.devnull_ok = true)
    (hch : env.send_env.chdir_ok = true) :
    (dfuse_launch_fuse env bg).events =
      [.create, .mount, .freeArgs, .write 0, .loop env.loop_rc, .unmount] ∧
    (env.loop_rc ≠ 0 → (dfuse_launch_fuse env bg).ret = false) := by
  have hsend : dfuse_send_to_fg env.send_env 0 bg = (-DER_SUCCESS, ⟨0⟩, [Ev.write 0]) := by
    simp [dfuse_send_to_fg, hfd, hw, hn, hch]
  by_cases hl : env.loop_rc = 0 <;>
    simp [dfuse_launch_fuse, hnew, hmnt, hsend, hl]

/-- Witness for C2 at a concrete input with a failing loop
(`loop_rc = 7`). -/
theorem C2_witness :
    (dfuse_launch_fuse ⟨true, 0, ⟨true, true, true⟩, 7⟩ ⟨5⟩).events =
      [.create, .mount, .freeArgs, .write 0, .loop 7, .unmount] ∧
    (dfuse_launch_fuse ⟨true, 0, ⟨true, true, true⟩, 7⟩ ⟨5⟩).ret = false :=
  ⟨(C2_signal_then_loop_then_unmount ⟨true, 0, ⟨true, true, true⟩, 7⟩ ⟨5⟩
      rfl rfl (by decide) rfl rfl rfl).1,
   (C2_signal_then_loop_then_unmount ⟨true, 0, ⟨true, true, true⟩, 7⟩ ⟨5⟩
      rfl rfl (by decide) rfl rfl rfl).2 (by decide)⟩

/-- C5, counterexample to the claim as stated.  With a concrete
environment in which `fuse_session_new` succeeds and
`fuse_session_mount` fails, `dfuse_launch_fuse` returns false but the
session is NOT returned to the Unbound state: the cleanup label
performs no teardown, so the created session stays behind in the
Bound state (created, neither destroyed nor mounted). -/
theorem C5_counterexample :
    (dfuse_launch_fuse ⟨true, 1, ⟨true, true, true⟩, 0⟩ ⟨5⟩).ret = false ∧
    (dfuse_launch_fuse ⟨true, 1, ⟨true, true, true⟩, 0⟩ ⟨5⟩).session = SessionSt.bound ∧
    (dfuse_launch_fuse ⟨true, 1, ⟨true, true, true⟩, 0⟩ ⟨5⟩).session ≠ SessionSt.unbound := by
  decide

/-- C5 as amended.  If `fuse_session_mount` fails, `dfuse_launch_fuse`
returns false, but performs no cleanup of the created session: the
session object remains behind in the Bound state (created but neither
mounted nor destroyed), and is not returned to Unbound. -/
theorem C5_mount_failure_no_cleanup (env : LaunchEnv) (bg : BgState)
    (hnew : env.session_new_ok = true) (hmnt : env.mount_rc ≠ 0) :
    (dfuse_launch_fuse env bg).ret = false ∧
    (dfuse_launch_fuse env bg).session = SessionSt.bound := by
  simp [dfuse_launch_fuse, hnew, hmnt]

/-- Witness for the amended C5 at a concrete input. -/
theorem C5_witness :
    (dfuse_launch_fuse ⟨true, 2, ⟨true, true, true⟩, 0⟩ ⟨3⟩).ret = false ∧
    (dfuse_launch_fuse ⟨true, 2, ⟨true, true, true⟩, 0⟩ ⟨3⟩).session = SessionSt.bound :=
  C5_mount_failure_no_cleanup ⟨true, 2, ⟨true, true, true⟩, 0⟩ ⟨3⟩ rfl (by decide)

/-- C6.  From any state with a live handshake channel, the first call
to `dfuse_send_to_fg` performs exactly one write and invalidates the
channel (`bg_fd = 0`); any subsequent call — with any environment and
any result code — performs no write, leaves the state unchanged, and
returns `-DER_SUCCESS`. -/
theorem C6_write_once (e1 e2 : SendEnv) (r1 r2 : Int) (s : BgState)
    (h : s.bg_fd ≠ 0) :
    (dfuse_send_to_fg e1 r1 s).2.2 = [Ev.write r1] ∧
    (dfuse_send_to_fg e1 r1 s).2.1.bg_fd = 0 ∧
    dfuse_send_to_fg e2 r2 (dfuse_send_to_fg e1 r1 s).2.1 =
      (-DER_SUCCESS, (dfuse_send_to_fg e1 r1 s).2.1, []) := by
  have h1 : (dfuse_send_to_fg e1 r1 s).2.1 = ⟨0⟩ := by
    simp [dfuse_send_to_fg, h]
  refine ⟨by simp [dfuse_send_to_fg, h], by rw [h1], ?_⟩
  rw [h1]
  simp [dfuse_send_to_fg]

/-- Witness for C6 at a concrete input: two calls from `bg_fd = 5`. -/
theorem C6_witness :
    (dfuse_send_to_fg ⟨true, true, true⟩ 0 ⟨5⟩).2.2 = [Ev.write 0] ∧
    (dfuse_send_to_fg ⟨true, true, true⟩ 0 ⟨5⟩).2.1.bg_fd = 0 ∧
    dfuse_send_to_fg ⟨false, false, false⟩ 9 (dfuse_send_to_fg ⟨true, true, true⟩ 0 ⟨5⟩).2.1 =
      (-DER_SUCCESS, (dfuse_send_to_fg ⟨true, true, true⟩ 0 ⟨5⟩).2.1, []) :=
  C6_write_once ⟨true, true, true⟩ ⟨false, false, false⟩ 0 9 ⟨5⟩ (by decide)

/-- Once `di_caching` is false it stays false across the rest of the
option loop: no option re-enables caching. -/
theorem foldl_caching_false (opts : List CmdOpt) :
    ∀ s : ParseState, s.info.di_caching = false →
      (opts.foldl applyOpt s).info.di_caching = false := by
  induction opts with
  | nil => intro s h; exact h
  | cons o t ih =>
    intro s h
    simp only [List.foldl_cons]
    exact ih _ (by cases o <;> simp [applyOpt, h])

/-- Once `di_wb_cache` is false it stays false across the rest of the
option loop: no option re-enables write-back caching. -/
theorem foldl_wb_false (opts : List CmdOpt) :
    ∀ s : ParseState, s.info.di_wb_cache = false →
      (opts.foldl applyOpt s).info.di_wb_cache = false := by
  induction opts with
  | nil => intro s h; exact h
  | cons o t ih =>
    intro s h
    simp only [List.foldl_cons]
    exact ih _ (by cases o <;> simp [applyOpt, h])

/-- If `--disable-caching` occurs anywhere on the command line, the
parse ends with both caching flags false. -/
theorem foldl_mem_disableCaching (opts : List CmdOpt) :
    ∀ s : ParseState, CmdOpt.disableCaching ∈ opts →
      (opts.foldl applyOpt s).info.di_caching = false ∧
      (opts.foldl applyOpt s).info.di_wb_cache = false := by
  induction opts with
  | nil => intro s h; simp at h
  | cons o t ih =>
    intro s hmem
    simp only [List.foldl_cons]
    rcases List.mem_cons.mp hmem with h | h
    · subst h
      exact ⟨foldl_caching_false t _ (by simp [applyOpt]),
             foldl_wb_false t _ (by simp [applyOpt])⟩
    · exact ih _ h

/-- If `--disable-wb-cache` occurs anywhere on the command line, the
parse ends with `di_wb_cache` false. -/
theorem foldl_mem_disableWb (opts : List CmdOpt) :
    ∀ s : ParseState, CmdOpt.disableWbCache ∈ opts →
      (opts.foldl applyOpt s).info.di_wb_cache = false := by
  induction opts with
  | nil => intro s h; simp at h
  | cons o t ih =>
    intro s hmem
    simp only [List.foldl_cons]
    rcases List.mem_cons.mp hmem with h | h
    · subst h
      exact foldl_wb_false t _ (by simp [applyOpt])
    · exact ih _ h

/-- Without `--disable-caching` on the command line, `di_caching` is
left exactly as it started: only that option touches it. -/
theorem foldl_no_disableCaching (opts : List CmdOpt) :
    ∀ s : ParseState, CmdOpt.disableCaching ∉ opts →
      (opts.foldl applyOpt s).info.di_caching = s.info.di_caching := by
  induction opts with
  | nil => intro s _; rfl
  | cons o t ih =>
    intro s hmem
    have ho : o ≠ CmdOpt.disableCaching := fun h =>
      hmem (h ▸ List.mem_cons_self o t)
    have ht : CmdOpt.disableCaching ∉ t := fun h =>
      hmem (List.mem_cons_of_mem o h)
    simp only [List.foldl_cons]
    rw [ih _ ht]
    cases o <;> first
      | exact absurd rfl ho
      | rfl

/-- C10.  `--disable-caching` anywhere on the command line disables
both caching and write-back caching, regardless of the other options;
without it caching stays enabled, and `--disable-wb-cache` then
disables only the write-back cache. -/
theorem C10_caching_flags (opts : List CmdOpt) :
    (CmdOpt.disableCaching ∈ opts →
       (parseOpts opts).info.di_caching = false ∧
       (parseOpts opts).info.di_wb_cache = false) ∧
    (CmdOpt.disableCaching ∉ opts →
       (parseOpts opts).info.di_caching = true ∧
       (CmdOpt.disableWbCache ∈ opts →
          (parseOpts opts).info.di_wb_cache = false)) := by
  refine ⟨fun h => foldl_mem_disableCaching opts initState h, fun h => ⟨?_, ?_⟩⟩
  · rw [parseOpts, foldl_no_disableCaching opts initState h]; rfl
  · exact fun hb => foldl_mem_disableWb opts initState hb

/-- Witness for C10 at concrete command lines:
`--disable-caching --disable-wb-cache` and `--disable-wb-cache`
alone. -/
theorem C10_witness :
    ((parseOpts [.disableCaching, .disableWbCache]).info.di_caching = false ∧
     (parseOpts [.disableCaching, .disableWbCache]).info.di_wb_cache = false) ∧
    ((parseOpts [.disableWbCache]).info.di_caching = true ∧
     (parseOpts [.disableWbCache]).info.di_wb_cache = false) :=
  ⟨(C10_caching_flags [.disableCaching, .disableWbCache]).1 (by decide),
   ((C10_caching_flags [.disableWbCache]).2 (by decide)).1,
   ((C10_caching_flags [.disableWbCache]).2 (by decide)).2 (by decide)⟩

/-- The `PMIX_RANK` override only ever touches the foreground flag. -/
theorem pmixAdjust_mountpoint (env : MainEnv) (i : DfuseInfo) :
    (pmixAdjust env i).di_mountpoint = i.di_mountpoint := by
  unfold pmixAdjust; split <;> rfl

/-- An abort in stage 1 happens before any pool connect, container
open or operation-table binding. -/
theorem preStage_inl_conns (env : MainEnv) (ps : ParseState) (r : MainRes)
    (h : preStage env ps = .inl r) :
    r.poolConn = none ∧ r.contOpenHow = none ∧ r.dfsOps = none := by
  simp only [preStage] at h
  repeat' split at h
  all_goals first
    | (injection h with h; subst h; exact ⟨rfl, rfl, rfl⟩)
    | exact Sum.noConfusion h

/-- An abort in stage 2 happens before any pool connect, container
open or operation-table binding. -/
theorem pathStage_inl_conns (env : MainEnv) (c : Ctx) (r : MainRes)
    (h : pathStage env c = .inl r) :
    r.poolConn = none ∧ r.contOpenHow = none ∧ r.dfsOps = none := by
  simp only [pathStage] at h
  repeat' split at h
  all_goals first
    | (injection h with h; subst h; exact ⟨rfl, rfl, rfl⟩)
    | exact Sum.noConfusion h

/-- An abort in stage 3 happens before any pool connect, container
open or operation-table binding. -/
theorem mountStage_inl_conns (env : MainEnv) (c : Ctx) (r : MainRes)
    (h : mountStage env c = .inl r) :
    r.poolConn = none ∧ r.contOpenHow = none ∧ r.dfsOps = none := by
  simp only [mountStage] at h
  repeat' split at h
  all_goals first
    | (injection h with h; subst h; exact ⟨rfl, rfl, rfl⟩)
    | exact Sum.noConfusion h

/-- Stage 2 never touches `dfuse_info`, whether it aborts or
continues. -/
theorem pathStage_info (env : MainEnv) (c : Ctx) :
    (∀ r, pathStage env c = .inl r → r.info = c.info) ∧
    (∀ c2, pathStage env c = .inr c2 → c2.info = c.info) := by
  constructor <;> intro x h <;>
    (simp only [pathStage] at h
     repeat' split at h) <;>
    first
      | (injection h with h; subst h; rfl)
      | exact Sum.noConfusion h

/-- Stage 3 never touches `dfuse_info`, whether it aborts or
continues. -/
theorem mountStage_info (env : MainEnv) (c : Ctx) :
    (∀ r, mountStage env c = .inl r → r.info = c.info) ∧
    (∀ c2, mountStage env c = .inr c2 → c2.info = c.info) := by
  constructor <;> intro x h <;>
    (simp only [mountStage] at h
     repeat' split at h) <;>
    first
      | (injection h with h; subst h; rfl)
      | exact Sum.noConfusion h

/-- Stage 4 never touches `dfuse_info`. -/
theorem connectStage_info (env : MainEnv) (c : Ctx) :
    (connectStage env c).info = c.info := by
  simp only [connectStage]
  repeat' split
  all_goals rfl

/-- Stage 4 always records how the pool connect was attempted. -/
theorem connectStage_poolConn (env : MainEnv) (c : Ctx) :
    (connectStage env c).poolConn = some (poolConnectHow env c) := by
  simp only [connectStage]
  repeat' split
  all_goals rfl

/-- When the pool connect succeeds, stage 4 records how the container
open was attempted. -/
theorem connectStage_contOpen (env : MainEnv) (c : Ctx)
    (h : env.pool_connect_rc = 0) :
    (connectStage env c).contOpenHow = some (contOpenHowOf env c) := by
  simp only [connectStage]
  rw [if_neg (by simp [h])]
  repeat' split
  all_goals rfl

/-- Stage 4 either binds no operation table (a connect/open failure)
or binds `dfuse_pool_ops` exactly when the connected pool UUID is
nil. -/
theorem connectStage_ops (env : MainEnv) (c : Ctx) :
    (connectStage env c).dfsOps = none ∨
    ((connectStage env c).poolConn = some (poolConnectHow env c) ∧
     (connectStage env c).dfsOps =
       some (if dfpPoolOf env (poolConnectHow env c) = 0 then OpsTable.poolOps
             else OpsTable.contOps)) := by
  simp only [connectStage]
  repeat' split
  all_goals first
    | exact Or.inl rfl
    | exact Or.inr ⟨rfl, rfl⟩

/-- What continuing out of stage 1 guarantees: the context carries the
parsed names unchanged, the UUID locals are still nil, and the
container-without-pool configuration has been ruled out. -/
theorem preStage_inr_fields (env : MainEnv) (ps : ParseState) (c : Ctx)
    (h : preStage env ps = .inr c) :
    c.pool_name = ps.pool_name ∧ c.cont_name = ps.cont_name ∧
    c.path = ps.path ∧ c.pu = 0 ∧ c.cu = 0 ∧
    ¬(ps.cont_name.isSome ∧ ps.pool_name.isNone) := by
  simp only [preStage] at h
  repeat' split at h
  all_goals first
    | exact Sum.noConfusion h
    | (injection h with h; subst h
       refine ⟨rfl, rfl, rfl, rfl, rfl, by assumption⟩)

/-- What continuing out of stage 2 guarantees: names, path, mountpoint
and info are unchanged, and the UUID locals either are untouched (no
`--path`) or carry the successfully resolved path attributes, in which
case no explicit pool was given. -/
theorem pathStage_inr_fields (env : MainEnv) (c : Ctx) (c2 : Ctx)
    (h : pathStage env c = .inr c2) :
    c2.pool_name = c.pool_name ∧ c2.cont_name = c.cont_name ∧
    c2.path = c.path ∧ c2.mnt = c.mnt ∧
    ((c.path = none ∧ c2.pu = c.pu ∧ c2.cu = c.cu) ∨
     (c.path.isSome ∧ ¬c.pool_name.isSome ∧ env.path_resolve.1 = 0 ∧
      c2.pu = env.path_resolve.2.1 ∧ c2.cu = env.path_resolve.2.2)) := by
  simp only [pathStage] at h
  split at h
  · injection h with h; subst h
    exact ⟨rfl, rfl, rfl, rfl, Or.inl ⟨by assumption, rfl, rfl⟩⟩
  · repeat' split at h
    all_goals first
      | exact Sum.noConfusion h
      | (injection h with h; subst h
         refine ⟨rfl, rfl, rfl, rfl, Or.inr ⟨by simp_all, by assumption, by omega, rfl, rfl⟩⟩)

/-- What continuing out of stage 3 guarantees: names and info
unchanged, and the UUID locals either carry the successfully probed
mountpoint attributes (in which case no explicit pool was given), or
the probe returned ENODATA/ENOTSUP and the locals are untouched. -/
theorem mountStage_inr_fields (env : MainEnv) (c : Ctx) (c2 : Ctx)
    (h : mountStage env c = .inr c2) :
    c2.pool_name = c.pool_name ∧ c2.cont_name = c.cont_name ∧
    ((env.mount_resolve.1 = 0 ∧ ¬c.pool_name.isSome ∧
      c2.pu = env.mount_resolve.2.1 ∧ c2.cu = env.mount_resolve.2.2) ∨
     ((env.mount_resolve.1 = ENODATA ∨ env.mount_resolve.1 = ENOTSUP) ∧
      c2.pu = c.pu ∧ c2.cu = c.cu)) := by
  simp only [mountStage] at h
  repeat' split at h
  all_goals first
    | exact Sum.noConfusion h
    | (injection h with h; subst h
       exact ⟨rfl, rfl, Or.inl ⟨by assumption, by assumption, rfl, rfl⟩⟩)
    | (injection h with h; subst h
       refine ⟨rfl, rfl, Or.inr ⟨?_, rfl, rfl⟩⟩
       rename_i h1 h2 h3
       by_cases hd : env.mount_resolve.1 = ENODATA
       · exact Or.inl hd
       · exact Or.inr (by tauto))

/-- On every path through stage 1 that gets past the minimum-thread
check, the thread count recorded in the outcome is the effective count
minus the one thread reserved for the DAOS event queue. -/
theorem preStage_tc (env : MainEnv) (ps : ParseState) (tc : Int) (m : String)
    (hm : ps.info.di_mountpoint = some m)
    (htc : effectiveTC env ps = some tc) (h2 : 2 ≤ tc) :
    (∀ r, preStage env ps = .inl r → r.info.di_thread_count = tc - 1) ∧
    (∀ c, preStage env ps = .inr c → c.info.di_thread_count = tc - 1) := by
  have hmp : (pmixAdjust env ps.info).di_mountpoint = some m := by
    rw [pmixAdjust_mountpoint, hm]
  constructor <;> intro x h <;>
    (simp only [preStage, hmp, htc] at h
     rw [if_neg (by omega)] at h
     repeat' split at h) <;>
    first
      | (injection h with h; subst h; rfl)
      | exact Sum.noConfusion h

/-- C7.  For every configuration whose effective thread count
(explicit, or CPU-derived from the affinity mask) is at least 2, the
post-reservation thread count in the configuration the daemon runs
with is exactly that count minus one, hence at least 1 — on every path
of the startup pipeline. -/
theorem C7_worker_count (env : MainEnv) (ps : ParseState) (tc : Int) (m : String)
    (hm : ps.info.di_mountpoint = some m)
    (htc : effectiveTC env ps = some tc) (h2 : 2 ≤ tc) :
    (mainAfterParse env ps).info.di_thread_count = tc - 1 ∧
    1 ≤ (mainAfterParse env ps).info.di_thread_count := by
  have key : (mainAfterParse env ps).info.di_thread_count = tc - 1 := by
    unfold mainAfterParse
    rcases hps : preStage env ps with r | c
    · exact (preStage_tc env ps tc m hm htc h2).1 r hps
    · have hc := (preStage_tc env ps tc m hm htc h2).2 c hps
      dsimp only
      rcases hpath : pathStage env c with r2 | c2
      · dsimp only
        rw [(pathStage_info env c).1 r2 hpath]; exact hc
      · have hc2 : c2.info = c.info := (pathStage_info env c).2 c2 hpath
        dsimp only
        rcases hmnt : mountStage env c2 with r3 | c3
        · dsimp only
          rw [(mountStage_info env c2).1 r3 hmnt, hc2]; exact hc
        · dsimp only
          rw [connectStage_info env c3, (mountStage_info env c2).2 c3 hmnt, hc2]
          exact hc
  refine ⟨key, ?_⟩
  rw [key]; omega

/-- Witness for C7: explicit `--thread-count 5` gives 4 worker
threads; the same environment derives 3 workers from a 4-CPU affinity
mask when no count is given. -/
theorem C7_witness :
    (mainAfterParse okEnv (parseOpts [.mountpoint "/mnt", .threadCount 5])).info.di_thread_count = 4 ∧
    1 ≤ (mainAfterParse okEnv (parseOpts [.mountpoint "/mnt", .threadCount 5])).info.di_thread_count :=
  C7_worker_count okEnv (parseOpts [.mountpoint "/mnt", .threadCount 5]) 5 "/mnt"
    (by decide) (by decide) (by decide)

/-- C3, counterexample to the claim as stated.  On the concrete
command line `-m /mnt -t 4 --container cont1` (no pool, background
mode), the run does fail with the configuration error and
`rc = -DER_INVAL`, but the fork into the background (`forkBg`) comes
strictly BEFORE the error is detected and reported — the trace is
`[forkBg, err ...]` — contradicting "detected and reported before any
fork into the background". -/
theorem C3_counterexample :
    (mainAfterParse okEnv (parseOpts [.mountpoint "/mnt", .threadCount 4, .container "cont1"])).events =
      [.forkBg, .err "Container name specified without pool"] ∧
    (mainAfterParse okEnv (parseOpts [.mountpoint "/mnt", .threadCount 4, .container "cont1"])).rc =
      -DER_INVAL := by
  decide

/-- C3 as amended.  A container argument with no pool identification
from any source is a fatal configuration error (`rc = -DER_INVAL`),
but it is detected only after daemonization: in background mode the
fork happens first, and the whole run reports exactly the fork
followed by the error. -/
theorem C3_fatal_after_fork (env : MainEnv) (ps : ParseState) (tc : Int)
    (m cn : String)
    (hm : ps.info.di_mountpoint = some m)
    (htc : effectiveTC env ps = some tc) (h2 : 2 ≤ tc)
    (hfg : ps.info.di_foreground = false) (hpx : env.pmix_rank = false)
    (hbg : env.bg_ok = true)
    (hc : ps.cont_name = some cn) (hp : ps.pool_name = none) :
    mainAfterParse env ps =
      { events := [.forkBg, .err "Container name specified without pool"],
        rc := -DER_INVAL,
        info := { ps.info with di_thread_count := tc - 1 } } := by
  have hpm : pmixAdjust env ps.info = ps.info := by
    simp [pmixAdjust, hpx]
  simp only [mainAfterParse, preStage, hpm, hm, htc]
  rw [if_neg (by omega)]
  simp [hfg, hbg, hc, hp]

/-- Witness for the amended C3 at a second concrete input. -/
theorem C3_witness :
    mainAfterParse okEnv (parseOpts [.mountpoint "/mnt2", .threadCount 6, .container "cfoo"]) =
      { events := [.forkBg, .err "Container name specified without pool"],
        rc := -DER_INVAL,
        info := { (parseOpts [.mountpoint "/mnt2", .threadCount 6, .container "cfoo"]).info with
                    di_thread_count := 5 } } :=
  C3_fatal_after_fork okEnv (parseOpts [.mountpoint "/mnt2", .threadCount 6, .container "cfoo"])
    6 "/mnt2" "cfoo" (by decide) (by decide) (by decide) (by decide) (by decide) (by decide)
    (by decide) (by decide)

/-- C8.  For every run that reaches the mountpoint probe, ENOENT on
the mountpoint is fatal (the run ends with "Mount point does not
exist" and never connects), while ENODATA and ENOTSUP are not errors:
the pipeline proceeds to the connect stage with the context — in
particular the identity obtained from the attribute-source path, held
in `pu`/`cu` — unchanged except for recording the probe. -/
theorem C8_mountpoint_probe (env : MainEnv) (ps : ParseState) (c c2 : Ctx)
    (h1 : preStage env ps = .inr c) (h2 : pathStage env c = .inr c2) :
    (env.mount_resolve.1 = ENOENT →
       mainAfterParse env ps =
         { events := c2.events ++ [.resolveMountpoint, .err "Mount point does not exist"],
           rc := env.errno2der ENOENT, info := c2.info }) ∧
    ((env.mount_resolve.1 = ENODATA ∨ env.mount_resolve.1 = ENOTSUP) →
       mainAfterParse env ps =
         connectStage env { c2 with events := c2.events ++ [.resolveMountpoint] }) := by
  constructor
  · intro he
    simp only [mainAfterParse, h1, h2, mountStage, he]
    norm_num [ENOENT]
  · rintro (he | he) <;>
      (simp only [mainAfterParse, h1, h2, mountStage, he]
       norm_num [ENOENT, ENODATA, ENOTSUP])

/-- Concrete parse state for the C8 witness runs:
`-m /mnt -t 4 -f --path /p`. -/
def psW8 : ParseState :=
  parseOpts [.mountpoint "/mnt", .threadCount 4, .foreground, .path "/p"]

/-- The environment of the first C8 witness run: `--path` carries the
identity (7, 9); the mountpoint does not exist. -/
def envW8a : MainEnv :=
  { okEnv with path_resolve := (0, 7, 9), mount_resolve := (ENOENT, 0, 0) }

/-- The environment of the second C8 witness run: `--path` carries the
identity (7, 9); the mountpoint carries no attribute data (ENODATA). -/
def envW8b : MainEnv :=
  { okEnv with path_resolve := (0, 7, 9), mount_resolve := (ENODATA, 0, 0) }

/-- The `dfuse_info` of the C8 witness runs after stage 1. -/
def infoW8 : DfuseInfo :=
  { di_threaded := true, di_caching := true, di_wb_cache := true,
    di_foreground := true, di_thread_count := 3,
    di_mountpoint := some "/mnt", di_group := none }

/-- Context after stage 1 of the C8 witness runs. -/
def cW8 : Ctx :=
  { events := [.daosInit, .fsInit], info := infoW8, mnt := "/mnt",
    pool_name := none, cont_name := none, path := some "/p", pu := 0, cu := 0 }

/-- Context after stage 2 of the C8 witness runs: the path identity
(7, 9) has been loaded. -/
def c2W8 : Ctx :=
  { events := [.daosInit, .fsInit, .resolvePath], info := infoW8, mnt := "/mnt",
    pool_name := none, cont_name := none, path := some "/p", pu := 7, cu := 9 }

/-- Witness for C8 at the concrete runs `envW8a`/`envW8b`: ENOENT on
the mountpoint aborts with the fatal report; ENODATA continues into
the connect stage with the path identity (7, 9) standing. -/
theorem C8_witness :
    (mainAfterParse envW8a psW8 =
      { events := c2W8.events ++ [.resolveMountpoint, .err "Mount point does not exist"],
        rc := envW8a.errno2der ENOENT, info := c2W8.info }) ∧
    (mainAfterParse envW8b psW8 =
      connectStage envW8b { c2W8 with events := c2W8.events ++ [.resolveMountpoint] }) :=
  ⟨(C8_mountpoint_probe envW8a psW8 cW8 c2W8 (by decide) (by decide)).1 (by decide),
   (C8_mountpoint_probe envW8b psW8 cW8 c2W8 (by decide) (by decide)).2 (by decide)⟩

/-- Every run of the pipeline either aborts before the connect stage —
with no pool connect, container open or table binding recorded — or
funnels a context `c3` through all three earlier stages into
`connectStage`. -/
theorem mainAfterParse_shape (env : MainEnv) (ps : ParseState) :
    ((mainAfterParse env ps).poolConn = none ∧
     (mainAfterParse env ps).contOpenHow = none ∧
     (mainAfterParse env ps).dfsOps = none) ∨
    (∃ c c2 c3, preStage env ps = .inr c ∧ pathStage env c = .inr c2 ∧
       mountStage env c2 = .inr c3 ∧ mainAfterParse env ps = connectStage env c3) := by
  unfold mainAfterParse
  rcases hps : preStage env ps with r | c
  · exact Or.inl (preStage_inl_conns env ps r hps)
  · dsimp only
    rcases hpath : pathStage env c with r2 | c2
    · exact Or.inl (pathStage_inl_conns env c r2 hpath)
    · dsimp only
      rcases hmnt : mountStage env c2 with r3 | c3
      · exact Or.inl (mountStage_inl_conns env c2 r3 hmnt)
      · refine Or.inr ⟨c, c2, c3, ?_, ?_, ?_, ?_⟩ <;> first | rfl | assumption

/-- C9.  Whenever the connected pool's identifier is the nil sentinel
(the "all pools" mode) and a container handle was bound to an
operation table at all, that table is `dfuse_pool_ops`, the multi-pool
table — not the single-pool one. -/
theorem C9_nil_pool_multi_ops (env : MainEnv) (ps : ParseState) (ch : ConnectHow)
    (hconn : (mainAfterParse env ps).poolConn = some ch)
    (hops : (mainAfterParse env ps).dfsOps.isSome)
    (hnil : dfpPoolOf env ch = 0) :
    (mainAfterParse env ps).dfsOps = some OpsTable.poolOps := by
  rcases mainAfterParse_shape env ps with ⟨_, _, h3⟩ | ⟨c, c2, c3, _, _, _, heq⟩
  · rw [h3] at hops; simp at hops
  · rw [heq] at hconn hops ⊢
    rcases connectStage_ops env c3 with hnone | ⟨hpc, hops2⟩
    · rw [hnone] at hops; simp at hops
    · rw [hops2]
      rw [hpc] at hconn
      injection hconn with hch
      rw [if_pos (by rw [hch]; exact hnil)]

/-- Witness for C9: a run with no pool given and no attributes
anywhere connects to the nil pool and binds `dfuse_pool_ops`. -/
theorem C9_witness :
    (mainAfterParse okEnv (parseOpts [.mountpoint "/mnt", .threadCount 4, .foreground])).dfsOps =
      some OpsTable.poolOps :=
  C9_nil_pool_multi_ops okEnv (parseOpts [.mountpoint "/mnt", .threadCount 4, .foreground])
    (ConnectHow.byUuid 0) (by decide) (by decide) (by decide)

/-- C4.  Whenever an attribute source (the `--path` argument or the
mountpoint) yields a definitive (pool, container) identity and the run
reaches the connect stage, the explicit `--pool`/`--container`
arguments are necessarily absent (their coexistence with a definitive
attribute source always aborts earlier: "Pool specified multiple
ways", or "Container name specified without pool"), and the pool is
connected and the container opened with exactly the attribute-derived
UUIDs — so an explicit argument can never silently override them. -/
theorem C4_attr_identity_used (env : MainEnv) (ps : ParseState) (p cq : Nat)
    (hattr : attrIdentity env ps = some (p, cq))
    (hreach : (mainAfterParse env ps).poolConn.isSome)
    (hpc : env.pool_connect_rc = 0) :
    ps.pool_name = none ∧ ps.cont_name = none ∧
    (mainAfterParse env ps).poolConn = some (ConnectHow.byUuid p) ∧
    (mainAfterParse env ps).contOpenHow = some (ConnectHow.byUuid cq) := by
  rcases mainAfterParse_shape env ps with ⟨h1, _, _⟩ | ⟨c, c2, c3, hps, hpath, hmnt, heq⟩
  · rw [h1] at hreach; simp at hreach
  · obtain ⟨e1, e2, e3, _, _, hnc⟩ := preStage_inr_fields env ps c hps
    obtain ⟨f1, f2, f3, _, fd⟩ := pathStage_inr_fields env c c2 hpath
    obtain ⟨g1, g2, gd⟩ := mountStage_inr_fields env c2 c3 hmnt
    have hmain : ps.pool_name = none ∧ c3.pu = p ∧ c3.cu = cq := by
      simp only [attrIdentity] at hattr
      split at hattr
      · rename_i hm0
        obtain ⟨rfl, rfl⟩ := hattr
        rcases gd with ⟨_, hnp, hcpu, hccu⟩ | ⟨hbad, _, _⟩
        · refine ⟨?_, hcpu, hccu⟩
          have h5 := Option.not_isSome_iff_eq_none.mp hnp
          rw [f1, e1] at h5
          exact h5
        · exfalso
          rcases hbad with hb | hb <;> rw [hb] at hm0 <;> exact absurd hm0 (by decide)
      · split at hattr
        · rename_i hmne hcond
          obtain ⟨rfl, rfl⟩ := hattr
          rcases gd with ⟨hm0, _, _, _⟩ | ⟨_, hcpu, hccu⟩
          · exact absurd hm0 hmne
          · rcases fd with ⟨hpnone, _, _⟩ | ⟨_, hnp, _, hppu, hpcu⟩
            · exfalso
              rw [e3] at hpnone
              rw [hpnone] at hcond
              simp at hcond
            · refine ⟨?_, by rw [hcpu, hppu], by rw [hccu, hpcu]⟩
              have h5 := Option.not_isSome_iff_eq_none.mp hnp
              rw [e1] at h5
              exact h5
        · exact absurd hattr (by simp)
    obtain ⟨hpn, hpu, hcu⟩ := hmain
    have hcont : ps.cont_name = none := by
      rcases hsc : ps.cont_name with _ | cn
      · rfl
      · exfalso
        exact hnc ⟨by rw [hsc]; rfl, by rw [hpn]; rfl⟩
    have hc3pn : c3.pool_name = none := by rw [g1, f1, e1, hpn]
    have hc3cn : c3.cont_name = none := by rw [g2, f2, e2, hcont]
    have hph : poolConnectHow env c3 = ConnectHow.byUuid p := by
      simp [poolConnectHow, hc3pn, hpu]
    have hchh : contOpenHowOf env c3 = ConnectHow.byUuid cq := by
      simp [contOpenHowOf, hc3cn, hcu]
    refine ⟨hpn, hcont, ?_, ?_⟩
    · rw [heq, connectStage_poolConn, hph]
    · rw [heq, connectStage_contOpen env c3 hpc, hchh]

/-- Witness for C4: mountpoint attributes carrying the identity
(3, 8), no explicit arguments; the run connects pool 3 and opens
container 8. -/
theorem C4_witness :
    (parseOpts [.mountpoint "/mnt", .threadCount 4, .foreground]).pool_name = none ∧
    (parseOpts [.mountpoint "/mnt", .threadCount 4, .foreground]).cont_name = none ∧
    (mainAfterParse { okEnv with mount_resolve := (0, 3, 8) }
       (parseOpts [.mountpoint "/mnt", .threadCount 4, .foreground])).poolConn =
      some (ConnectHow.byUuid 3) ∧
    (mainAfterParse { okEnv with mount_resolve := (0, 3, 8) }
       (parseOpts [.mountpoint "/mnt", .threadCount 4, .foreground])).contOpenHow =
      some (ConnectHow.byUuid 8) :=
  C4_attr_identity_used { okEnv with mount_resolve := (0, 3, 8) }
    (parseOpts [.mountpoint "/mnt", .threadCount 4, .foreground]) 3 8
    (by decide) (by decide) (by decide)

end Dfuse
